import Mathlib

/-!
Verification development for the Isilon volume provisioning driver
(nova/volume/isilon.py) of the Mirantis nova repository.

The driver is a thin orchestration layer: every public operation resolves a
target name from the volume or snapshot name, builds one or more appliance
command argument lists, and hands them to an injected command executor.  The
shallow embedding below models each driver method as a Lean function that is
parameterised by the executor (a function from an argument list to the
captured output or an execution error) and that returns both the list of
appliance commands actually handed to the executor, in issue order, and the
Python-level outcome of the call (normal return or raised exception).

Python-level failures are made explicit: a raised exception becomes an
`Except.error` carrying a `PyError`.  Two slips of the source are embedded
faithfully rather than repaired, because several claims turn on them:

* `create_volume` (isilon.py line 90) evaluates the bare identifier `name`
  in `volume[name]`; `name` is bound neither in the method scope, nor in the
  module globals (flags, logging, cfg, san, LOG, FLAGS, isilon_opts,
  IsilonDriver), nor in the Python builtins, so every call raises NameError
  before any appliance command is issued.

* `_update_target` (isilon.py line 67) iterates over `prop_dict.keys` without
  calling it; the attribute lookup yields the bound method object and the
  `for` statement, which sits before the `try` block, raises TypeError
  (CPython 2 wording: iteration over non-sequence) before any command is
  issued.
-/

/-- Python exceptions that the embedded driver code can raise. -/
inductive PyError where
  | NameError (ident : String)
  | KeyError (key : String)
  | TypeError (msg : String)
  | ExecError (msg : String)
  | PyExc (msg : String)
deriving DecidableEq, Repr

/-- An appliance command: the ordered argument list handed to `_execute`. -/
abbrev Cmd := List String

/-- Modelled from the spec: the Command Executor interface of section 6 —
`execute(args) -> output string`, failing with an execution error on non-zero
exit.  The base-class `_execute` consumed by the driver is not under src. -/
abbrev Exec := Cmd → Except PyError String

/-- The configuration flags read by the driver (isilon_opts plus the SAN
options of the base class).  The portal port is registered as a string option
in the source, so it is a `String` here. -/
structure Flags where
  san_ip : String
  isilon_iscsi_target_portal_port : String
  isilon_thin_provisioning : Bool
  isilon_smart_cache : Bool
  isilon_access_pattern : String
  isilon_read_only : Bool
  isilon_lun_force_deletion : Bool
deriving DecidableEq, Repr

/-- The volume dictionary fields the driver reads: name and size. -/
structure Volume where
  name : String
  size : Nat
deriving DecidableEq, Repr

/-- The snapshot dictionary fields the driver reads: name and volume_id. -/
structure Snapshot where
  name : String
  volume_id : String
deriving DecidableEq, Repr

/-- The connector dictionary; the initiator key may be absent, which the
embedding records as `none` (a lookup of an absent key raises KeyError). -/
structure Connector where
  initiator : Option String
deriving DecidableEq, Repr

/-- The dictionary returned by create_export. -/
structure ModelUpdate where
  provider_location : String
deriving DecidableEq, Repr

/-- Embeds `IsilonDriver._target_name`: `volume[name].split(sep)[0]` with
separator `:` — the prefix of the name up to the first colon (the whole name
when no colon occurs). -/
def target_name (name : String) : String :=
  String.mk (name.data.takeWhile (fun c => c != ':'))

/-- The argument list `_create_target` hands to `_execute`
(`--require-allow=%s % True` formats as the literal `True`). -/
def target_create_cmd (tg : String) : Cmd :=
  ["isi", "target", "create", "--name=" ++ tg, "--require-allow=True"]

/-- Embeds `IsilonDriver._create_target`: issues target-create and swallows
every exception with a bare `except Exception` that only logs, so the call
always returns normally. -/
def create_target (ex : Exec) (tg : String) : List Cmd × Except PyError Unit :=
  match ex (target_create_cmd tg) with
  | .ok _ => ([target_create_cmd tg], .ok ())
  | .error _ => ([target_create_cmd tg], .ok ())

/-- A Python value in iterable position: either a genuine sequence of strings
or a bound-method object (what an attribute access like `d.keys`, written
without the call parentheses, evaluates to). -/
inductive PyIterAble where
  | elems (xs : List String)
  | boundMethod
deriving DecidableEq, Repr

/-- Python iteration: iterating a bound-method object raises TypeError
(CPython 2 wording for the `for` statement). -/
def pyIterate : PyIterAble → Except PyError (List String)
  | .elems xs => .ok xs
  | .boundMethod => .error (.TypeError "iteration over non-sequence")

/-- In `_update_target` the expression `prop_dict.keys` is written without
calling the method, so it evaluates to the bound-method object itself, not to
the list of keys, whatever the dictionary contents are. -/
def keys_uncalled : PyIterAble := .boundMethod

/-- Embeds `IsilonDriver._update_target`: builds the target-modify argument
list, appending one `--key=value` argument per dictionary key, then executes
it inside a `try` whose `except Exception` only logs.  The `for` statement
iterating `prop_dict.keys` sits before the `try` block, so the TypeError it
raises propagates out of the method. -/
def update_target (ex : Exec) (tg : String) (props : List (String × String)) :
    List Cmd × Except PyError Unit :=
  match pyIterate keys_uncalled with
  | .error e => ([], .error e)
  | .ok ks =>
    let cmd := ["isi", "target", "modify", "--name=" ++ tg]
      ++ ks.map (fun k => "--" ++ k ++ "=" ++ ((props.lookup k).getD ""))
    match ex cmd with
    | .ok _ => ([cmd], .ok ())
    | .error _ => ([cmd], .ok ())

/-- The argument list `_delete_target` hands to `_execute`. -/
def target_delete_cmd (tg : String) : Cmd :=
  ["isi", "target", "delete", "--name=" ++ tg, "--force"]

/-- Embeds `IsilonDriver._delete_target`: issues target-delete with no
exception handling, so executor failures propagate. -/
def delete_target (ex : Exec) (tg : String) : List Cmd × Except PyError Unit :=
  match ex (target_delete_cmd tg) with
  | .ok _ => ([target_delete_cmd tg], .ok ())
  | .error e => ([target_delete_cmd tg], .error e)

/-- Modelled from the spec: the size-formatting capability `_sizestr` of the
generic storage-backend base class (section 4.2: gigabytes, integer), not
under src; the repository tests show the rendering `1G` for size 1. -/
def sizestr (n : Nat) : String :=
  toString n ++ "G"

/-- The lun-create argument list built by `create_volume` from the flags:
name and size always; `--smart-cache=False` only when smart cache is off;
`--read-only=True` only when read-only is on; `--thin=False` only when thin
provisioning is off; the access pattern always appended last. -/
def lun_create_cmd (fl : Flags) (v : Volume) : Cmd :=
  ["isi", "lun", "create", "--name=" ++ v.name, "--size=" ++ sizestr v.size]
  ++ (if !fl.isilon_smart_cache then ["--smart-cache=False"] else [])
  ++ (if fl.isilon_read_only then ["--read-only=True"] else [])
  ++ (if !fl.isilon_thin_provisioning then ["--thin=False"] else [])
  ++ ["--access_pattern=" ++ fl.isilon_access_pattern]

/-- Python resolution of the bare identifier `name` evaluated by
`create_volume` in the subscript `volume[name]` (isilon.py line 90): it is not
a local of the method (those are self, volume, tg_name, cmd), not a module
global of nova/volume/isilon.py (those are flags, logging, cfg, san, LOG,
FLAGS, isilon_opts, IsilonDriver), and not a Python builtin, so evaluating it
raises NameError. -/
def bare_name_lookup : Except PyError Unit :=
  .error (.NameError "name")

/-- Embeds `IsilonDriver.create_volume`.  The first statement evaluates
`volume[name]`, whose subscript expression resolves the bare identifier
`name` and raises NameError, so the remainder of the body — the colon check,
`_create_target`, and the lun-create — is unreachable; it is still embedded
below the gate, reading the subscript as the name field it was meant to be.
The method body has no return statement, so a normal return yields None,
embedded as `Unit`. -/
def create_volume (ex : Exec) (fl : Flags) (v : Volume) :
    List Cmd × Except PyError Unit :=
  match bare_name_lookup with
  | .error e => ([], .error e)
  | .ok _ =>
    if ':' ∉ v.name.data then
      ([], .error (.PyExc "No target mentioned in LUN name to create"))
    else
      let tcr := create_target ex (target_name v.name)
      match ex (lun_create_cmd fl v) with
      | .ok _ => (tcr.1 ++ [lun_create_cmd fl v], .ok ())
      | .error e => (tcr.1 ++ [lun_create_cmd fl v], .error e)

/-- The lun-clone argument list of `create_volume_from_snapshot`: the source
is the snapshot LUN (the `--name` argument), the destination the new volume
LUN (the `--clone` argument), and the clone type is `normal`. -/
def volume_from_snapshot_clone_cmd (v : Volume) (s : Snapshot) : Cmd :=
  ["isi", "lun", "clone", "--name=" ++ s.name, "--clone=" ++ v.name,
   "--type=normal"]

/-- Embeds `IsilonDriver.create_volume_from_snapshot`: one lun-clone of type
normal, no exception handling. -/
def create_volume_from_snapshot (ex : Exec) (v : Volume) (s : Snapshot) :
    List Cmd × Except PyError Unit :=
  match ex (volume_from_snapshot_clone_cmd v s) with
  | .ok _ => ([volume_from_snapshot_clone_cmd v s], .ok ())
  | .error e => ([volume_from_snapshot_clone_cmd v s], .error e)

/-- The lun-delete argument list of `delete_volume`; when force deletion is
not configured the conditional expression contributes an empty-string
argument, exactly as in the source. -/
def lun_delete_cmd (fl : Flags) (v : Volume) : Cmd :=
  ["isi", "lun", "delete", "--name=" ++ v.name,
   if fl.isilon_lun_force_deletion then "--force" else ""]

/-- The target-list query of `delete_volume`, asking for the LUNs remaining
under the target of the volume. -/
def target_list_cmd (v : Volume) : Cmd :=
  ["isi", "target", "list", "--name=" ++ target_name v.name, "--luns"]

/-- Embeds `IsilonDriver.delete_volume`: lun-delete first (failures
propagate), then the target-list query; `if not lun_list` — empty output —
triggers `_delete_target`, otherwise the target persists. -/
def delete_volume (ex : Exec) (fl : Flags) (v : Volume) :
    List Cmd × Except PyError Unit :=
  match ex (lun_delete_cmd fl v) with
  | .error e => ([lun_delete_cmd fl v], .error e)
  | .ok _ =>
    match ex (target_list_cmd v) with
    | .error e => ([lun_delete_cmd fl v, target_list_cmd v], .error e)
    | .ok lun_list =>
      if lun_list = "" then
        let dt := delete_target ex (target_name v.name)
        (lun_delete_cmd fl v :: target_list_cmd v :: dt.1, dt.2)
      else
        ([lun_delete_cmd fl v, target_list_cmd v], .ok ())

/-- The lun-clone argument list of `create_snapshot`: the `--name` (source)
argument is built by `%` formatting, which binds tighter than `+`, so it is
the target name of the snapshot concatenated with the parent volume id; the
`--clone` (destination) argument is the snapshot LUN name; the clone type is
`snapshot`. -/
def snapshot_clone_cmd (s : Snapshot) : Cmd :=
  ["isi", "lun", "clone", "--name=" ++ target_name s.name ++ s.volume_id,
   "--clone=" ++ s.name, "--type=snapshot"]

/-- Embeds `IsilonDriver.create_snapshot`: one lun-clone of type snapshot, no
exception handling. -/
def create_snapshot (ex : Exec) (s : Snapshot) :
    List Cmd × Except PyError Unit :=
  match ex (snapshot_clone_cmd s) with
  | .ok _ => ([snapshot_clone_cmd s], .ok ())
  | .error e => ([snapshot_clone_cmd s], .error e)

/-- The lun-delete argument list of `delete_snapshot` (no force argument). -/
def snapshot_lun_delete_cmd (s : Snapshot) : Cmd :=
  ["isi", "lun", "delete", "--name=" ++ s.name]

/-- Embeds `IsilonDriver.delete_snapshot`: a single lun-delete for the
snapshot LUN, no exception handling, and no further statements — in
particular no target-list query and no target-delete. -/
def delete_snapshot (ex : Exec) (s : Snapshot) :
    List Cmd × Except PyError Unit :=
  match ex (snapshot_lun_delete_cmd s) with
  | .ok _ => ([snapshot_lun_delete_cmd s], .ok ())
  | .error e => ([snapshot_lun_delete_cmd s], .error e)

/-- Embeds `IsilonDriver.create_export`: issues no command, returns the
provider-location dictionary built by the format string
`%s:%s,1 %s % (FLAGS.san_ip, FLAGS.isilon_iscsi_target_portal_port,
self._target_name(volume))`. -/
def create_export (fl : Flags) (v : Volume) : ModelUpdate :=
  ⟨fl.san_ip ++ ":" ++ fl.isilon_iscsi_target_portal_port ++ ",1 "
    ++ target_name v.name⟩

/-- Embeds `IsilonDriver.ensure_export`: a no-op. -/
def ensure_export : Unit := ()

/-- Embeds `IsilonDriver.remove_export`: a no-op. -/
def remove_export : Unit := ()

/-- The dictionary `initialize_connection` returns on success. -/
structure ConnectionInfo where
  driver_volume_type : String
  data : String
deriving DecidableEq, Repr

/-- The observable outcome of one `initialize_connection` call: the appliance
commands issued, whether the block-transport session-setup delegate
(`_get_iscsi_properties`) was invoked, and the Python-level result. -/
structure ConnCall where
  issued : List Cmd
  session_called : Bool
  result : Except PyError ConnectionInfo
deriving Repr

/-- Embeds `IsilonDriver.initialize_connection`.  The argument dictionary of
the `_update_target` call evaluates `connector[initiator-key]` first (KeyError
when the connector lacks the key); then `_update_target` runs; only after it
returns would `_get_iscsi_properties` — modelled from the spec as the opaque
block-transport session-setup delegate `sess`, since the base class is not
under src — be invoked to build the returned dictionary. -/
def init_connection (ex : Exec) (sess : Volume → Except PyError String)
    (v : Volume) (c : Connector) : ConnCall :=
  match c.initiator with
  | none => ⟨[], false, .error (.KeyError "initiator")⟩
  | some ini =>
    match update_target ex (target_name v.name)
        [("initiator", ini), ("require-allow", "True")] with
    | (log, .error e) => ⟨log, false, .error e⟩
    | (log, .ok _) =>
      match sess v with
      | .error e => ⟨log, true, .error e⟩
      | .ok props => ⟨log, true, .ok ⟨"iscsi", props⟩⟩

/-- Embeds `IsilonDriver.terminate_connection`: a single `_update_target`
call with the properties initiator=no and require-allow=False; the connector
argument is never read. -/
def terminate_connection (ex : Exec) (v : Volume) (_conn : Connector) :
    List Cmd × Except PyError Unit :=
  update_target ex (target_name v.name)
    [("initiator", "no"), ("require-allow", "False")]

/-- Modelled from the spec: the decode direction `target_name_of` of the
Provider-Location Codec (sections 4.1 and 6); it is not under src.  Per
section 6 a single space separates the connection tuple from the target name,
so the target-name segment is everything after the first space. -/
def target_name_of (loc : String) : String :=
  String.mk ((loc.data.dropWhile (fun c => c != ' ')).drop 1)

/-! Concrete fixtures used by witnesses and counterexamples: the default
configuration of the option declarations with the san_ip of the repository
tests, a volume and a snapshot in the composite naming scheme, and three
executors. -/

/-- Default flag values of the option declarations (thin provisioning on,
smart cache on, access pattern random, read-only off, force deletion off),
with the san_ip and portal port used by the repository tests. -/
def flags_default : Flags :=
  ⟨"1.1.1.1", "3260", true, true, "random", false, false⟩

/-- A volume in the composite naming scheme: target tgt, LUN id 1, 1 GiB. -/
def volume_tgt_1 : Volume := ⟨"tgt:1", 1⟩

/-- A snapshot under target tgt with parent volume id 1. -/
def snapshot_tgt_snap1 : Snapshot := ⟨"tgt:snap1", "1"⟩

/-- An executor on which every command succeeds with empty output; in
particular the target-list query reports no remaining LUNs. -/
def exec_all_ok_empty : Exec := fun _ => .ok ""

/-- An executor on which every command fails because the addressed resource
is already absent, as after a first successful delete. -/
def exec_absent : Exec := fun _ => .error (.ExecError "lun does not exist")

/-- An executor on which target-create for target tgt fails with a
diagnostic that is not an already-exists report, and every other command
succeeds. -/
def exec_target_create_fails : Exec := fun c =>
  if c = target_create_cmd "tgt" then .error (.ExecError "appliance unreachable")
  else .ok ""

/-! Helper lemmas. -/

/-- The target-delete argument list is never the lun-delete argument list:
they differ in their second argument. -/
theorem target_delete_cmd_ne_lun_delete_cmd (tg : String) (fl : Flags)
    (v : Volume) : target_delete_cmd tg ≠ lun_delete_cmd fl v := by
  intro h
  simp only [target_delete_cmd, lun_delete_cmd] at h
  injection h with h0 h1
  injection h1 with h2 h3
  exact absurd h2 (by decide)

/-- The target-delete argument list is never the target-list argument list:
they differ in their third argument. -/
theorem target_delete_cmd_ne_target_list_cmd (tg : String) (v : Volume) :
    target_delete_cmd tg ≠ target_list_cmd v := by
  intro h
  simp only [target_delete_cmd, target_list_cmd] at h
  injection h with h0 h1
  injection h1 with h2 h3
  injection h3 with h4 h5
  exact absurd h4 (by decide)

/-- Dropping while not-space over a list with no space, followed by a space,
stops exactly at that space. -/
theorem dropWhile_until_space (l₁ l₂ : List Char) (h : ∀ c ∈ l₁, c ≠ ' ') :
    List.dropWhile (fun c => c != ' ') (l₁ ++ ' ' :: l₂) = ' ' :: l₂ := by
  induction l₁ with
  | nil => simp [List.dropWhile_cons]
  | cons a as ih =>
      have ha : a ≠ ' ' := h a (List.mem_cons_self a as)
      simp only [List.cons_append, List.dropWhile_cons]
      rw [if_pos (by simpa using ha)]
      exact ih (fun c hc => h c (List.mem_cons_of_mem a hc))

/-! Claim theorems. -/

/-- C1: delete_volume first issues lun-delete for the LUN of the volume, then
queries the remaining LUNs under the target of the volume, and issues
target-delete exactly when the lun-delete succeeded and that query reported
empty output (no remaining LUNs); whenever a target-delete is issued, the
full issue order is lun-delete, target-list, target-delete, so the lun-delete
always precedes any target-delete. -/
theorem delete_volume_lun_first_target_iff_empty (ex : Exec) (fl : Flags)
    (v : Volume) :
    ((delete_volume ex fl v).1.head? = some (lun_delete_cmd fl v))
    ∧ (target_delete_cmd (target_name v.name) ∈ (delete_volume ex fl v).1 ↔
        ((∃ o, ex (lun_delete_cmd fl v) = Except.ok o)
          ∧ ex (target_list_cmd v) = Except.ok ""))
    ∧ (target_delete_cmd (target_name v.name) ∈ (delete_volume ex fl v).1 →
        (delete_volume ex fl v).1 =
          [lun_delete_cmd fl v, target_list_cmd v,
           target_delete_cmd (target_name v.name)]) := by
  have hne1 := target_delete_cmd_ne_lun_delete_cmd (target_name v.name) fl v
  have hne2 := target_delete_cmd_ne_target_list_cmd (target_name v.name) v
  unfold delete_volume
  cases h1 : ex (lun_delete_cmd fl v) with
  | error e =>
      refine ⟨rfl, ⟨?_, ?_⟩, ?_⟩
      · intro hm; simp at hm; exact absurd hm hne1
      · rintro ⟨⟨o, ho⟩, -⟩; exact absurd ho (by simp)
      · intro hm; simp at hm; exact absurd hm hne1
  | ok o1 =>
      cases h2 : ex (target_list_cmd v) with
      | error e =>
          refine ⟨rfl, ⟨?_, ?_⟩, ?_⟩
          · intro hm; simp at hm
            rcases hm with hm | hm
            exacts [absurd hm hne1, absurd hm hne2]
          · rintro ⟨-, hl⟩; exact absurd hl (by simp)
          · intro hm; simp at hm
            rcases hm with hm | hm
            exacts [absurd hm hne1, absurd hm hne2]
      | ok s =>
          dsimp only
          by_cases hs : s = ""
          · subst hs
            rw [if_pos rfl]
            unfold delete_target
            cases h3 : ex (target_delete_cmd (target_name v.name)) with
            | error e =>
                exact ⟨rfl, ⟨fun _ => ⟨⟨o1, rfl⟩, rfl⟩, fun _ => by simp⟩,
                  fun _ => rfl⟩
            | ok o3 =>
                exact ⟨rfl, ⟨fun _ => ⟨⟨o1, rfl⟩, rfl⟩, fun _ => by simp⟩,
                  fun _ => rfl⟩
          · rw [if_neg hs]
            refine ⟨rfl, ⟨?_, ?_⟩, ?_⟩
            · intro hm; simp at hm
              rcases hm with hm | hm
              exacts [absurd hm hne1, absurd hm hne2]
            · rintro ⟨-, hl⟩
              injection hl with hl'
              exact absurd hl' hs
            · intro hm; simp at hm
              rcases hm with hm | hm
              exacts [absurd hm hne1, absurd hm hne2]

/-- Witness for C1: on an executor where every command succeeds with empty
output, deleting the volume tgt:1 does issue the target-delete for tgt. -/
theorem delete_volume_lun_first_target_iff_empty_witness :
    target_delete_cmd (target_name "tgt:1")
      ∈ (delete_volume exec_all_ok_empty flags_default volume_tgt_1).1 :=
  (delete_volume_lun_first_target_iff_empty exec_all_ok_empty flags_default
      volume_tgt_1).2.1.mpr ⟨⟨"", rfl⟩, rfl⟩

/-- C2: create_snapshot issues exactly one lun-clone whose clone type is
snapshot, whose source (the --name argument) is derived from the snapshot
target name and the parent volume id, and whose destination (the --clone
argument) is the snapshot LUN name; create_volume_from_snapshot issues
exactly one lun-clone whose clone type is normal, whose source is the
snapshot LUN name and whose destination is the new volume LUN name.  The two
clone types are never swapped. -/
theorem clone_types_never_swapped (ex : Exec) (v : Volume) (s : Snapshot) :
    (create_snapshot ex s).1 =
      [["isi", "lun", "clone",
        "--name=" ++ target_name s.name ++ s.volume_id,
        "--clone=" ++ s.name, "--type=snapshot"]]
    ∧ (create_volume_from_snapshot ex v s).1 =
      [["isi", "lun", "clone", "--name=" ++ s.name, "--clone=" ++ v.name,
        "--type=normal"]] := by
  constructor
  · unfold create_snapshot
    cases ex (snapshot_clone_cmd s) <;> rfl
  · unfold create_volume_from_snapshot
    cases ex (volume_from_snapshot_clone_cmd v s) <;> rfl

/-- C3 (code bug): create_volume never succeeds and never returns a provider
location — every call raises NameError on the bare identifier `name` before
issuing a single appliance command, while the repository test
test_create_volume asserts a provider-location return value. -/
theorem create_volume_never_returns_location (ex : Exec) (fl : Flags)
    (v : Volume) :
    (create_volume ex fl v).1 = []
    ∧ (create_volume ex fl v).2 = Except.error (PyError.NameError "name") :=
  ⟨rfl, rfl⟩

/-- Counterexample for C4: on an executor whose target-create for tgt fails
with a diagnostic that is not an already-exists report, create_volume does
not surface that execution error — it raises NameError without issuing any
command — so the claim that every non-already-exists target-create failure is
surfaced unchanged is false at this input. -/
theorem create_volume_error_policy_counterexample :
    (create_volume exec_target_create_fails flags_default volume_tgt_1).2
        ≠ Except.error (PyError.ExecError "appliance unreachable")
    ∧ (create_volume exec_target_create_fails flags_default volume_tgt_1)
        = ([], Except.error (PyError.NameError "name")) := by
  constructor
  · intro h
    injection h with h'
    exact PyError.noConfusion h'
  · rfl

/-- C4 as amended: create_volume issues no appliance command at all and always
raises NameError on the bare identifier `name`, so no target-create or
lun-create failure is ever classified or surfaced; moreover the _create_target
helper it was meant to reach swallows every target-create failure — not only
already-exists reports — and returns normally. -/
theorem create_volume_error_policy_amended :
    (∀ ex tg, (create_target ex tg).2 = Except.ok ())
    ∧ (∀ ex fl v, create_volume ex fl v
        = ([], Except.error (PyError.NameError "name"))) := by
  constructor
  · intro ex tg
    unfold create_target
    cases ex (target_create_cmd tg) <;> rfl
  · intro ex fl v
    rfl

/-- C5: for any configuration whose portal address and portal port contain no
space, decoding the target-name segment out of the provider-location string
produced by create_export recovers exactly the target name that
`target_name` derives from the volume name (round-trip law), and the
produced string has the format address, colon, port, comma, LUN index 1,
then a single space, then the target name. -/
theorem provider_location_round_trip (fl : Flags) (v : Volume)
    (hip : ∀ c ∈ fl.san_ip.data, c ≠ ' ')
    (hport : ∀ c ∈ fl.isilon_iscsi_target_portal_port.data, c ≠ ' ') :
    target_name_of (create_export fl v).provider_location = target_name v.name
    ∧ (create_export fl v).provider_location
        = fl.san_ip ++ ":" ++ fl.isilon_iscsi_target_portal_port ++ ",1 "
          ++ target_name v.name := by
  refine ⟨?_, rfl⟩
  unfold target_name_of create_export
  have hdata : (fl.san_ip ++ ":" ++ fl.isilon_iscsi_target_portal_port
      ++ ",1 " ++ target_name v.name).data
      = (fl.san_ip.data
          ++ ':' :: (fl.isilon_iscsi_target_portal_port.data ++ [',', '1']))
        ++ ' ' :: (target_name v.name).data := by
    simp only [String.data_append]
    simp [List.append_assoc]
  rw [hdata, dropWhile_until_space]
  · rfl
  · intro c hc
    simp only [List.mem_append, List.mem_cons, List.mem_singleton] at hc
    rcases hc with hc | hc | hc | hc
    · exact hip c hc
    · subst hc; decide
    · exact hport c hc
    · rcases hc with hc | hc
      · subst hc; decide
      · rcases hc with hc | hc
        · subst hc; decide
        · exact absurd hc (List.not_mem_nil c)

/-- Witness for C5: with the default configuration and the volume tgt:1, the
encoded location decodes back to the target name tgt. -/
theorem provider_location_round_trip_witness :
    target_name_of
        (create_export flags_default volume_tgt_1).provider_location
      = target_name "tgt:1" :=
  (provider_location_round_trip flags_default volume_tgt_1
      (by decide) (by decide)).1

/-- C6: deletion is not idempotent — when the executor reports a failure for
the lun-delete (as it does when the resource is already absent on a second
delete of the same identifier), delete_volume and delete_snapshot surface
that execution error to the caller unchanged. -/
theorem delete_paths_surface_execution_errors (ex : Exec) (fl : Flags)
    (v : Volume) (s : Snapshot) (e : PyError) :
    (ex (lun_delete_cmd fl v) = Except.error e →
      (delete_volume ex fl v).2 = Except.error e)
    ∧ (ex (snapshot_lun_delete_cmd s) = Except.error e →
      (delete_snapshot ex s).2 = Except.error e) := by
  constructor
  · intro h
    unfold delete_volume
    rw [h]
  · intro h
    unfold delete_snapshot
    rw [h]

/-- Witness for C6: on an executor where the addressed LUN is already absent,
both delete operations fail with that execution error. -/
theorem delete_paths_surface_execution_errors_witness :
    (delete_volume exec_absent flags_default volume_tgt_1).2
        = Except.error (PyError.ExecError "lun does not exist")
    ∧ (delete_snapshot exec_absent snapshot_tgt_snap1).2
        = Except.error (PyError.ExecError "lun does not exist") :=
  ⟨(delete_paths_surface_execution_errors exec_absent flags_default
      volume_tgt_1 snapshot_tgt_snap1
      (PyError.ExecError "lun does not exist")).1 rfl,
   (delete_paths_surface_execution_errors exec_absent flags_default
      volume_tgt_1 snapshot_tgt_snap1
      (PyError.ExecError "lun does not exist")).2 rfl⟩

/-- C7 (code bug): initialize_connection never issues the ACL target-modify
command and never invokes the block-transport session-setup delegate — with
an initiator in the connector it raises the TypeError of _update_target
(iteration over the uncalled prop_dict.keys), and without one it raises
KeyError — while the repository test test_initialize_connection expects the
target-modify command to be executed before the delegated session setup. -/
theorem init_connection_reaches_neither_acl_nor_session (ex : Exec)
    (sess : Volume → Except PyError String) (v : Volume) (c : Connector) :
    (init_connection ex sess v c).issued = []
    ∧ (init_connection ex sess v c).session_called = false
    ∧ (init_connection ex sess v c).result =
        Except.error (match c.initiator with
          | none => PyError.KeyError "initiator"
          | some _ => PyError.TypeError "iteration over non-sequence") := by
  cases c with
  | mk ini => cases ini <;> exact ⟨rfl, rfl, rfl⟩

/-- C8 (code bug): terminate_connection issues no appliance command at all
and raises TypeError for every volume and every connector — also for a fully
populated one — because _update_target iterates the uncalled prop_dict.keys;
the repository test test_terminate_connection expects a target-modify with
initiator no and require-allow False to be executed. -/
theorem terminate_connection_raises_type_error (ex : Exec) (v : Volume)
    (c : Connector) :
    terminate_connection ex v c
      = ([], Except.error (PyError.TypeError "iteration over non-sequence")) :=
  rfl

/-- Counterexample for C9: on an executor where every command succeeds with
empty output — so no LUNs remain under the target tgt after the lun-delete —
delete_snapshot still issues only the lun-delete and never the target-delete
for tgt, refuting the claim that it follows the empty-target cleanup rule of
delete_volume. -/
theorem delete_snapshot_no_cleanup_counterexample :
    (delete_snapshot exec_all_ok_empty snapshot_tgt_snap1).1
        = [["isi", "lun", "delete", "--name=tgt:snap1"]]
    ∧ target_delete_cmd (target_name "tgt:snap1")
        ∉ (delete_snapshot exec_all_ok_empty snapshot_tgt_snap1).1 :=
  ⟨rfl, by decide⟩

/-- C9 as amended: delete_snapshot issues exactly the one lun-delete for the
snapshot LUN and performs no target cleanup — it never queries the remaining
LUNs and never issues a target-delete, whatever the executor reports — and
its outcome is the outcome of that single command. -/
theorem delete_snapshot_only_lun_delete (ex : Exec) (s : Snapshot) :
    (delete_snapshot ex s).1 = [snapshot_lun_delete_cmd s]
    ∧ (delete_snapshot ex s).2
        = (ex (snapshot_lun_delete_cmd s)).map (fun _ => ()) := by
  unfold delete_snapshot
  cases h : ex (snapshot_lun_delete_cmd s) <;>
    exact ⟨rfl, by simp [Except.map]⟩

/-- C10: the behaviour of terminate_connection is independent of the
connector argument — for a fixed executor and volume, any two connectors
(including one missing every field) yield the same issued command sequence
and the same result, since the method never reads the connector. -/
theorem terminate_connection_connector_independent (ex : Exec) (v : Volume)
    (c c' : Connector) :
    terminate_connection ex v c = terminate_connection ex v c' :=
  rfl
